import Mathlib

/-!
Shallow embedding of the watermark detection and reverse-compositing engine
of the `lsj-watermark-remover` repository (src/js/core/watermarkEngine.js and
the modules it orchestrates), together with theorems checking the
natural-language specification against it.

JavaScript numbers are embedded as `Nat`/`Int` for integer quantities and
as exact rationals (`ℚ`) for the fractional scaling arithmetic.  `Math.round`
is embedded as `jsRound` (nearest integer, halves toward positive infinity).
Pixel buffers are embedded as functions from coordinates and channel index to
byte values; in-place mutation becomes returning a new buffer.
-/

namespace WatermarkRemover

/-- JavaScript `Math.round`: the closest integer, with halves rounded toward
positive infinity, i.e. `⌊q + 1/2⌋`. -/
def jsRound (q : ℚ) : ℤ := ⌊q + 1/2⌋

/-- Watermark type constants (`WATERMARK_TYPE` in watermarkEngine.js). -/
inductive WMType
  | gemini
  | doubao
  | unknown
deriving DecidableEq, Repr

/-- The three Doubao aspect-ratio categories, rendered in JS as the strings
`'1x1'`, `'2x3'` and `'3x2'`. -/
inductive AspectCategory
  | a1x1
  | a2x3
  | a3x2
deriving DecidableEq, Repr

/-- The Gemini size categories, rendered in JS as the strings `'small'`,
`'medium'` and `'large'`. -/
inductive SizeCategory
  | small
  | medium
  | large
deriving DecidableEq, Repr

/-- The Gemini source-template tag, rendered in JS as the strings `'48'`
and `'96'`. -/
inductive SourceTemplate
  | t48
  | t96
deriving DecidableEq, Repr

/-- One entry of `DOUBAO_CONFIGS`: reference dimensions and measured
watermark geometry for one aspect category. -/
structure DoubaoRefConfig where
  refWidth : ℕ
  refHeight : ℕ
  wmWidth : ℕ
  wmHeight : ℕ
  marginRight : ℕ
  marginBottom : ℕ
deriving DecidableEq, Repr

/-- `DOUBAO_CONFIGS` from watermarkEngine.js. -/
def DOUBAO_CONFIGS : AspectCategory → DoubaoRefConfig
  | .a1x1 => ⟨2048, 2048, 282, 123, 57, 54⟩
  | .a2x3 => ⟨1672, 2508, 225, 43, 50, 50⟩
  | .a3x2 => ⟨2508, 1672, 296, 71, 53, 53⟩

/-- `GEMINI_SCALING` from watermarkEngine.js.  The JS decimal literals are
embedded as the exact rationals they denote. -/
structure GeminiScaling where
  smallMaxEdge : ℕ
  sizeSlope : ℚ
  sizeIntercept : ℚ
  marginSlope : ℚ
  marginIntercept : ℚ

/-- `GEMINI_SCALING = { smallMaxEdge: 1024, sizeSlope: 0.0762376,
sizeIntercept: -60.15, marginSlope: 0.0396040, marginIntercept: -17.11 }`. -/
def GEMINI_SCALING : GeminiScaling :=
  { smallMaxEdge := 1024
    sizeSlope := 762376 / 10000000
    sizeIntercept := -6015 / 100
    marginSlope := 396040 / 10000000
    marginIntercept := -1711 / 100 }

/-- The watermark configuration object produced by `detectWatermarkConfig` /
`calculateGeminiConfig`.  Fields that are present only on some variants are
`Option`s (absent JS properties read as `undefined`). -/
structure WMConfig where
  type : WMType
  width : ℤ
  height : ℤ
  logoSize : Option ℤ
  marginRight : ℤ
  marginBottom : ℤ
  aspectCategory : Option AspectCategory
  sizeCategory : Option SizeCategory
  sourceTemplate : Option SourceTemplate
  refConfig : Option DoubaoRefConfig
deriving DecidableEq, Repr

/-- `getDoubaoAspectCategory` from watermarkEngine.js:
`ratio = imageWidth / imageHeight`; `ratio < 0.8 → '2x3'`,
`ratio > 1.2 → '3x2'`, otherwise `'1x1'`. -/
def getDoubaoAspectCategory (imageWidth imageHeight : ℕ) : AspectCategory :=
  let r : ℚ := (imageWidth : ℚ) / (imageHeight : ℚ)
  if r < 8/10 then .a2x3
  else if r > 12/10 then .a3x2
  else .a1x1

/-- `calculateGeminiConfig` from watermarkEngine.js: fixed 48px watermark for
short edge ≤ 1024, fixed 96px for short edge ≤ 2048, and linear interpolation
(rounded with `Math.round`) for larger images. -/
def calculateGeminiConfig (imageWidth imageHeight : ℕ) : WMConfig :=
  let shortEdge := min imageWidth imageHeight
  if shortEdge ≤ GEMINI_SCALING.smallMaxEdge then
    { type := .gemini, sizeCategory := some .small
      width := 48, height := 48, logoSize := some 48
      marginRight := 32, marginBottom := 32
      aspectCategory := none, sourceTemplate := some .t48, refConfig := none }
  else if shortEdge ≤ 2048 then
    { type := .gemini, sizeCategory := some .medium
      width := 96, height := 96, logoSize := some 96
      marginRight := 64, marginBottom := 64
      aspectCategory := none, sourceTemplate := some .t96, refConfig := none }
  else
    let logoSize :=
      jsRound (GEMINI_SCALING.sizeSlope * (shortEdge : ℚ) + GEMINI_SCALING.sizeIntercept)
    let margin :=
      jsRound (GEMINI_SCALING.marginSlope * (shortEdge : ℚ) + GEMINI_SCALING.marginIntercept)
    { type := .gemini, sizeCategory := some .large
      width := logoSize, height := logoSize, logoSize := some logoSize
      marginRight := margin, marginBottom := margin
      aspectCategory := none, sourceTemplate := some .t96, refConfig := none }

/-- `detectWatermarkConfig` from watermarkEngine.js.  For the Doubao variant
it selects the aspect bucket, scales the four measured quantities by the
shorter-edge ratio and rounds each; otherwise it falls through to
`calculateGeminiConfig`. -/
def detectWatermarkConfig (imageWidth imageHeight : ℕ) (watermarkType : WMType) : WMConfig :=
  if watermarkType = .doubao then
    let aspectCategory := getDoubaoAspectCategory imageWidth imageHeight
    let config := DOUBAO_CONFIGS aspectCategory
    let refShortEdge := min config.refWidth config.refHeight
    let imgShortEdge := min imageWidth imageHeight
    let scale : ℚ := (imgShortEdge : ℚ) / (refShortEdge : ℚ)
    { type := .doubao, aspectCategory := some aspectCategory
      width := jsRound ((config.wmWidth : ℚ) * scale)
      height := jsRound ((config.wmHeight : ℚ) * scale)
      logoSize := none
      marginRight := jsRound ((config.marginRight : ℚ) * scale)
      marginBottom := jsRound ((config.marginBottom : ℚ) * scale)
      sizeCategory := none, sourceTemplate := none, refConfig := some config }
  else
    calculateGeminiConfig imageWidth imageHeight

/-- The watermark rectangle `{x, y, width, height}` in absolute image
coordinates. -/
structure WatermarkRect where
  x : ℤ
  y : ℤ
  width : ℤ
  height : ℤ
deriving DecidableEq, Repr

/-- `calculateWatermarkPosition` from watermarkEngine.js:
`x = imageWidth - marginRight - width`, `y = imageHeight - marginBottom - height`. -/
def calculateWatermarkPosition (imageWidth imageHeight : ℕ) (config : WMConfig) :
    WatermarkRect :=
  { x := (imageWidth : ℤ) - config.marginRight - config.width
    y := (imageHeight : ℤ) - config.marginBottom - config.height
    width := config.width
    height := config.height }

/-- Clamp an integer channel value to the byte range [0, 255]. -/
def clampByte (n : ℤ) : ℤ := max 0 (min 255 n)

/-- The safety ceiling applied to an opacity value before dividing:
`min a 0.999`. -/
def effectiveAlpha (a : ℚ) : ℚ := min a (999/1000)

/-- Modelled from the spec: the per-channel reverse alpha blend of
`applyReverseBlend` lives in `blendModes.js`, which is not present under
src/ (only its import and call sites are).  Per the spec, the opacity is
clamped to at most 0.999 before dividing, then
`C_true = (C_obs - a·F) / (1 - a)`, rounded and clamped to [0, 255]. -/
def reverseBlendChannel (cObs : ℚ) (a : ℚ) (F : ℚ) : ℤ :=
  let a' := effectiveAlpha a
  clampByte (jsRound ((cObs - a' * F) / (1 - a')))

/-- The forward compositing model from the spec:
`C_obs = a·F + (1-a)·C_true`. -/
def forwardComposite (cTrue : ℤ) (a : ℚ) (F : ℚ) : ℚ :=
  a * F + (1 - a) * (cTrue : ℚ)

/-- A pixel buffer: byte value at coordinates `(x, y)` and channel index
(0 = R, 1 = G, 2 = B, 3 = A).  In-place mutation is embedded as returning a
new buffer. -/
def Buffer : Type := ℤ → ℤ → Fin 4 → ℤ

/-- An alpha map for a rectangle, indexed by rectangle-local coordinates. -/
def AlphaMap : Type := ℤ → ℤ → ℚ

/-- Per-call engine errors. -/
inductive EngineError
  | regionOutOfBounds
deriving DecidableEq, Repr

/-- The rectangle fits fully within the image:
`0 ≤ x`, `0 ≤ y`, `x + width ≤ imageWidth`, `y + height ≤ imageHeight`. -/
def rectInBounds (r : WatermarkRect) (imageWidth imageHeight : ℕ) : Bool :=
  0 ≤ r.x && 0 ≤ r.y && r.x + r.width ≤ (imageWidth : ℤ) &&
    r.y + r.height ≤ (imageHeight : ℤ)

/-- `(x, y)` lies inside the rectangle. -/
def inRect (r : WatermarkRect) (x y : ℤ) : Bool :=
  r.x ≤ x && x < r.x + r.width && r.y ≤ y && y < r.y + r.height

/-- Modelled from the spec: `removeWatermark` lives in `blendModes.js`, which
is not present under src/ (only its import and call sites are).  Per the
spec, the implementation validates the rectangle before mutating any pixel
(reporting `RegionOutOfBounds` with the buffer untouched when it does not
fit), and otherwise applies the reverse blend to the color channels of
exactly the pixels inside the rectangle, leaving the alpha channel and all
bytes outside the rectangle unmodified. -/
def removeWatermark (buf : Buffer) (alphaMap : AlphaMap) (F : ℚ)
    (position : WatermarkRect) (imageWidth imageHeight : ℕ) :
    Except EngineError Buffer :=
  if rectInBounds position imageWidth imageHeight then
    .ok (fun x y c =>
      if inRect position x y && c.val < 3 then
        reverseBlendChannel ((buf x y c : ℚ))
          (alphaMap (x - position.x) (y - position.y)) F
      else
        buf x y c)
  else
    .error .regionOutOfBounds

/-- The per-call pipeline of `WatermarkEngine.removeWatermarkFromImage`:
detect the configuration from the image dimensions, compute the watermark
position, and run the reverse compositor on the pixel buffer.  The alpha map
and the constant foreground tint are parameters (their derivation from the
reference captures is canvas work that does not affect which bytes are
mutated). -/
def removeWatermarkFromImage (buf : Buffer) (alphaMap : AlphaMap) (F : ℚ)
    (imageWidth imageHeight : ℕ) (watermarkType : WMType) :
    Except EngineError Buffer :=
  let config := detectWatermarkConfig imageWidth imageHeight watermarkType
  let position := calculateWatermarkPosition imageWidth imageHeight config
  removeWatermark buf alphaMap F position imageWidth imageHeight

/-- A decoded reference capture (pixel content abstracted to its header). -/
structure Capture where
  width : ℕ
  height : ℕ
deriving DecidableEq, Repr

/-- The `bgCaptures` record handed to the `WatermarkEngine` constructor. -/
structure BgCaptures where
  bg48 : Capture
  bg96 : Capture
  doubao1x1 : Capture
  doubao2x3 : Capture
  doubao3x2 : Capture
deriving DecidableEq, Repr

/-- A reference-asset load failure (an `onerror` rejection in
`WatermarkEngine.create`). -/
inductive LoadError
  | loadFailed
deriving DecidableEq, Repr

/-- The engine state built by the `WatermarkEngine` constructor: the loaded
captures plus the initial current watermark type (`gemini`).  The alpha-map
cache starts empty and is not part of creation. -/
structure Engine where
  bgCaptures : BgCaptures
  currentWatermarkType : WMType
deriving DecidableEq, Repr

/-- `WatermarkEngine.create` from watermarkEngine.js: the five reference
captures are fetched concurrently under `Promise.all`, which resolves with
all five results only when every load succeeded and rejects with a load
error as soon as any one fails; only on success is the constructor run. -/
def WatermarkEngine.create (r48 r96 rD1 rD2 rD3 : Except LoadError Capture) :
    Except LoadError Engine :=
  match r48, r96, rD1, rD2, rD3 with
  | .ok bg48, .ok bg96, .ok d1, .ok d2, .ok d3 =>
      .ok { bgCaptures := ⟨bg48, bg96, d1, d2, d3⟩, currentWatermarkType := .gemini }
  | .error e, _, _, _, _ => .error e
  | _, .error e, _, _, _ => .error e
  | _, _, .error e, _, _ => .error e
  | _, _, _, .error e, _ => .error e
  | _, _, _, _, .error e => .error e

/-- The five reference templates an alpha map can be derived from. -/
inductive Template
  | bg48
  | bg96
  | doubao1x1
  | doubao2x3
  | doubao3x2
deriving DecidableEq, Repr

/-- The JS string for an aspect category. -/
def aspectCategoryStr : AspectCategory → String
  | .a1x1 => "1x1"
  | .a2x3 => "2x3"
  | .a3x2 => "3x2"

/-- The JS string for a size category. -/
def sizeCategoryStr : SizeCategory → String
  | .small => "small"
  | .medium => "medium"
  | .large => "large"

/-- The JS string for a watermark type. -/
def wmTypeStr : WMType → String
  | .gemini => "gemini"
  | .doubao => "doubao"
  | .unknown => "unknown"

/-- The middle component of the cache key in `getAlphaMap`:
`aspectCategory || sizeCategory || 'default'` (JS falsy fallback over the
optional fields). -/
def cacheKeyCategory (config : WMConfig) : String :=
  match config.aspectCategory with
  | some a => aspectCategoryStr a
  | none =>
    match config.sizeCategory with
    | some s => sizeCategoryStr s
    | none => "default"

/-- The cache key built in `getAlphaMap`:
`` `${type}_${aspectCategory || sizeCategory || 'default'}_${width}x${height}` ``.
The JS string rendering is injective on these four components (the type and
category alternatives are fixed underscore-free strings and the dimensions
are digit strings), so the key is embedded as the component tuple. -/
def cacheKey (config : WMConfig) : String × String × ℤ × ℤ :=
  (wmTypeStr config.type, cacheKeyCategory config, config.width, config.height)

/-- The source-template selection of `getAlphaMap`: for Doubao, the template
of `aspectCategory || '1x1'`; for Gemini, `bg48` when
`sourceTemplate === '48' || config.logoSize <= 48` (with an absent
`logoSize` comparing as false), else `bg96`. -/
def alphaMapTemplate (config : WMConfig) : Template :=
  if config.type = .doubao then
    match config.aspectCategory with
    | some .a1x1 => .doubao1x1
    | some .a2x3 => .doubao2x3
    | some .a3x2 => .doubao3x2
    | none => .doubao1x1
  else
    if config.sourceTemplate = some .t48 then .bg48
    else
      match config.logoSize with
      | some l => if l ≤ 48 then .bg48 else .bg96
      | none => .bg96

/-- The target dimensions `getAlphaMap` derives the alpha map at: the canvas
is sized to `config.width × config.height`. -/
def alphaMapTargetDims (config : WMConfig) : ℤ × ℤ :=
  (config.width, config.height)

/-! ## Helper lemmas -/

/-- `jsRound` is monotone. -/
theorem jsRound_mono {p q : ℚ} (h : p ≤ q) : jsRound p ≤ jsRound q :=
  Int.floor_le_floor (by linarith)

/-- `jsRound` is the identity on integers. -/
theorem jsRound_intCast (n : ℤ) : jsRound (n : ℚ) = n := by
  rw [jsRound, Int.floor_int_add]
  norm_num

/-- `clampByte` is the identity on the byte range. -/
theorem clampByte_of_mem {n : ℤ} (h0 : 0 ≤ n) (h255 : n ≤ 255) : clampByte n = n := by
  rw [clampByte, min_eq_right h255, max_eq_right h0]

/-- `calculateGeminiConfig` on a short edge beyond 2048 takes the
interpolation branch. -/
theorem calculateGeminiConfig_of_large (w h : ℕ) (hg : 2048 < min w h) :
    calculateGeminiConfig w h =
      { type := .gemini, sizeCategory := some .large
        width := jsRound (GEMINI_SCALING.sizeSlope * ((min w h : ℕ) : ℚ) +
          GEMINI_SCALING.sizeIntercept)
        height := jsRound (GEMINI_SCALING.sizeSlope * ((min w h : ℕ) : ℚ) +
          GEMINI_SCALING.sizeIntercept)
        logoSize := some (jsRound (GEMINI_SCALING.sizeSlope * ((min w h : ℕ) : ℚ) +
          GEMINI_SCALING.sizeIntercept))
        marginRight := jsRound (GEMINI_SCALING.marginSlope * ((min w h : ℕ) : ℚ) +
          GEMINI_SCALING.marginIntercept)
        marginBottom := jsRound (GEMINI_SCALING.marginSlope * ((min w h : ℕ) : ℚ) +
          GEMINI_SCALING.marginIntercept)
        aspectCategory := none, sourceTemplate := some .t96, refConfig := none } := by
  have hn1 : ¬ (min w h ≤ GEMINI_SCALING.smallMaxEdge) := by
    show ¬ (min w h ≤ 1024)
    omega
  have hn2 : ¬ (min w h ≤ 2048) := by omega
  simp only [calculateGeminiConfig, hn1, hn2, if_false]

/-! ## Claim theorems -/

/-- C2: for the Gemini (size-based) variant, an image whose shorter edge is
exactly 2048 resolves to watermark size 96 and margin 64, and an image whose
shorter edge is exactly 3058 resolves to size 173 and margin 104, the latter
being exactly the rounded output of the linear-interpolation formula. -/
theorem gemini_calibration_points_exact (w h : ℕ) :
    (min w h = 2048 →
      (calculateGeminiConfig w h).width = 96 ∧
      (calculateGeminiConfig w h).height = 96 ∧
      (calculateGeminiConfig w h).marginRight = 64 ∧
      (calculateGeminiConfig w h).marginBottom = 64) ∧
    (min w h = 3058 →
      (calculateGeminiConfig w h).width =
        jsRound (GEMINI_SCALING.sizeSlope * 3058 + GEMINI_SCALING.sizeIntercept) ∧
      (calculateGeminiConfig w h).marginRight =
        jsRound (GEMINI_SCALING.marginSlope * 3058 + GEMINI_SCALING.marginIntercept) ∧
      (calculateGeminiConfig w h).width = 173 ∧
      (calculateGeminiConfig w h).height = 173 ∧
      (calculateGeminiConfig w h).marginRight = 104 ∧
      (calculateGeminiConfig w h).marginBottom = 104) := by
  constructor
  · intro he
    have hn1 : ¬ (min w h ≤ GEMINI_SCALING.smallMaxEdge) := by
      show ¬ (min w h ≤ 1024)
      omega
    have hp2 : min w h ≤ 2048 := le_of_eq he
    simp only [calculateGeminiConfig, hn1, hp2, if_false, if_true]
    simp
  · intro he
    rw [calculateGeminiConfig_of_large w h (by omega), he]
    refine ⟨rfl, rfl, ?_, ?_, ?_, ?_⟩ <;>
      norm_num [GEMINI_SCALING, jsRound]

/-- Witness for C2 at the two calibration edges. -/
theorem gemini_calibration_points_exact_witness :
    min 2048 4096 = 2048 ∧ min 3058 4096 = 3058 ∧
    (calculateGeminiConfig 2048 4096).width = 96 ∧
    (calculateGeminiConfig 2048 4096).marginRight = 64 ∧
    (calculateGeminiConfig 3058 4096).width = 173 ∧
    (calculateGeminiConfig 3058 4096).marginRight = 104 := by
  have h1 := (gemini_calibration_points_exact 2048 4096).1 (by norm_num)
  have h2 := (gemini_calibration_points_exact 3058 4096).2 (by norm_num)
  exact ⟨by norm_num, by norm_num, h1.1, h1.2.2.1, h2.2.2.1, h2.2.2.2.2.1⟩

/-- C3: aspect classification for the Doubao variant is a pure function of
the ratio width/height: ratio < 0.8 yields the tall (2x3) bucket,
ratio > 1.2 yields the wide (3x2) bucket, and every other ratio, the
boundary values 0.8 and 1.2 included, yields the square (1x1) bucket. -/
theorem doubao_aspect_classification (w h : ℕ) (hw : 0 < w) (hh : 0 < h) :
    ((w : ℚ) / (h : ℚ) < 8/10 → getDoubaoAspectCategory w h = .a2x3) ∧
    ((w : ℚ) / (h : ℚ) > 12/10 → getDoubaoAspectCategory w h = .a3x2) ∧
    (8/10 ≤ (w : ℚ) / (h : ℚ) → (w : ℚ) / (h : ℚ) ≤ 12/10 →
      getDoubaoAspectCategory w h = .a1x1) := by
  refine ⟨fun hlt => ?_, fun hgt => ?_, fun hge hle => ?_⟩ <;>
    simp only [getDoubaoAspectCategory]
  · rw [if_pos hlt]
  · rw [if_neg (by linarith), if_pos hgt]
  · rw [if_neg (not_lt.mpr hge), if_neg (not_lt.mpr hle)]

/-- Witness for C3 at the boundary ratio 4/5 = 0.8 (square bucket). -/
theorem doubao_aspect_classification_witness :
    0 < 4 ∧ 0 < 5 ∧ (8 : ℚ)/10 ≤ (4 : ℚ) / 5 ∧ (4 : ℚ) / 5 ≤ 12/10 ∧
    getDoubaoAspectCategory 4 5 = .a1x1 := by
  refine ⟨by norm_num, by norm_num, by norm_num, by norm_num, ?_⟩
  have := (doubao_aspect_classification 4 5 (by norm_num) (by norm_num)).2.2
  exact this (by norm_num) (by norm_num)

/-- C4: for the Doubao variant, each of the four measured quantities of the
selected bucket's reference configuration is scaled by the single factor
min(imageWidth, imageHeight) / min(refWidth, refHeight) and rounded to the
nearest integer. -/
theorem doubao_shorter_edge_scaling (w h : ℕ) (hw : 0 < w) (hh : 0 < h) :
    (detectWatermarkConfig w h .doubao).width =
      jsRound (((DOUBAO_CONFIGS (getDoubaoAspectCategory w h)).wmWidth : ℚ) *
        ((min w h : ℚ) / (min (DOUBAO_CONFIGS (getDoubaoAspectCategory w h)).refWidth
          (DOUBAO_CONFIGS (getDoubaoAspectCategory w h)).refHeight : ℚ))) ∧
    (detectWatermarkConfig w h .doubao).height =
      jsRound (((DOUBAO_CONFIGS (getDoubaoAspectCategory w h)).wmHeight : ℚ) *
        ((min w h : ℚ) / (min (DOUBAO_CONFIGS (getDoubaoAspectCategory w h)).refWidth
          (DOUBAO_CONFIGS (getDoubaoAspectCategory w h)).refHeight : ℚ))) ∧
    (detectWatermarkConfig w h .doubao).marginRight =
      jsRound (((DOUBAO_CONFIGS (getDoubaoAspectCategory w h)).marginRight : ℚ) *
        ((min w h : ℚ) / (min (DOUBAO_CONFIGS (getDoubaoAspectCategory w h)).refWidth
          (DOUBAO_CONFIGS (getDoubaoAspectCategory w h)).refHeight : ℚ))) ∧
    (detectWatermarkConfig w h .doubao).marginBottom =
      jsRound (((DOUBAO_CONFIGS (getDoubaoAspectCategory w h)).marginBottom : ℚ) *
        ((min w h : ℚ) / (min (DOUBAO_CONFIGS (getDoubaoAspectCategory w h)).refWidth
          (DOUBAO_CONFIGS (getDoubaoAspectCategory w h)).refHeight : ℚ))) := by
  simp only [detectWatermarkConfig, if_pos rfl]
  push_cast
  exact ⟨rfl, rfl, rfl, rfl⟩

/-- Witness for C4 at a 1000×3000 image (tall bucket). -/
theorem doubao_shorter_edge_scaling_witness :
    0 < 1000 ∧ 0 < 3000 ∧
    (detectWatermarkConfig 1000 3000 .doubao).width =
      jsRound (((DOUBAO_CONFIGS (getDoubaoAspectCategory 1000 3000)).wmWidth : ℚ) *
        ((min 1000 3000 : ℚ) /
          (min (DOUBAO_CONFIGS (getDoubaoAspectCategory 1000 3000)).refWidth
            (DOUBAO_CONFIGS (getDoubaoAspectCategory 1000 3000)).refHeight : ℚ))) :=
  ⟨by norm_num, by norm_num,
    (doubao_shorter_edge_scaling 1000 3000 (by norm_num) (by norm_num)).1⟩

/-- C8: for the Gemini variant beyond the largest calibration bucket
(shorter edge > 2048), the rounded interpolated size and margin are
non-decreasing in the shorter edge. -/
theorem gemini_interpolation_monotone (w1 h1 w2 h2 : ℕ)
    (hgt : 2048 < min w1 h1) (hle : min w1 h1 ≤ min w2 h2) :
    (calculateGeminiConfig w1 h1).width ≤ (calculateGeminiConfig w2 h2).width ∧
    (calculateGeminiConfig w1 h1).marginRight ≤
      (calculateGeminiConfig w2 h2).marginRight := by
  rw [calculateGeminiConfig_of_large w1 h1 hgt,
    calculateGeminiConfig_of_large w2 h2 (by omega)]
  have hc : ((min w1 h1 : ℕ) : ℚ) ≤ ((min w2 h2 : ℕ) : ℚ) := by exact_mod_cast hle
  constructor
  · exact jsRound_mono (by
      have : GEMINI_SCALING.sizeSlope * ((min w1 h1 : ℕ) : ℚ) ≤
          GEMINI_SCALING.sizeSlope * ((min w2 h2 : ℕ) : ℚ) := by
        apply mul_le_mul_of_nonneg_left hc
        norm_num [GEMINI_SCALING]
      linarith)
  · exact jsRound_mono (by
      have : GEMINI_SCALING.marginSlope * ((min w1 h1 : ℕ) : ℚ) ≤
          GEMINI_SCALING.marginSlope * ((min w2 h2 : ℕ) : ℚ) := by
        apply mul_le_mul_of_nonneg_left hc
        norm_num [GEMINI_SCALING]
      linarith)

/-- Witness for C8 at shorter edges 2500 and 3000. -/
theorem gemini_interpolation_monotone_witness :
    2048 < min 2500 2600 ∧ min 2500 2600 ≤ min 3000 3100 ∧
    (calculateGeminiConfig 2500 2600).width ≤ (calculateGeminiConfig 3000 3100).width ∧
    (calculateGeminiConfig 2500 2600).marginRight ≤
      (calculateGeminiConfig 3000 3100).marginRight :=
  ⟨by norm_num, by norm_num,
    gemini_interpolation_monotone 2500 2600 3000 3100 (by norm_num) (by norm_num)⟩

/-- C1: when the computed watermark rectangle does not fit fully within the
supplied image dimensions, the watermark-removal call reports a
RegionOutOfBounds error and no mutated pixel buffer is produced — the
rectangle is validated before any pixel is mutated. -/
theorem region_out_of_bounds_no_mutation (buf : Buffer) (am : AlphaMap) (F : ℚ)
    (w h : ℕ) (t : WMType)
    (hoob : rectInBounds
      (calculateWatermarkPosition w h (detectWatermarkConfig w h t)) w h = false) :
    removeWatermarkFromImage buf am F w h t = .error .regionOutOfBounds ∧
    ∀ buf', removeWatermarkFromImage buf am F w h t ≠ .ok buf' := by
  have herr : removeWatermarkFromImage buf am F w h t = .error .regionOutOfBounds := by
    simp only [removeWatermarkFromImage, removeWatermark]
    rw [hoob]
    simp
  exact ⟨herr, fun buf' hok => by rw [herr] at hok; exact Except.noConfusion hok⟩

/-- Witness for C1: a 10×10 Gemini image is smaller than the 48px watermark
plus its 32px margin, so the rectangle is out of bounds and the call
reports the error. -/
theorem region_out_of_bounds_no_mutation_witness :
    rectInBounds
      (calculateWatermarkPosition 10 10 (detectWatermarkConfig 10 10 .gemini))
      10 10 = false ∧
    removeWatermarkFromImage (fun _ _ _ => 0) (fun _ _ => 0) 0 10 10 .gemini =
      .error .regionOutOfBounds := by
  refine ⟨by decide, ?_⟩
  exact (region_out_of_bounds_no_mutation (fun _ _ _ => 0) (fun _ _ => 0) 0 10 10
    .gemini (by decide)).1

/-- C5: buffer mutation locality — when a watermark-removal call returns a
processed buffer, every byte whose coordinates lie outside the resolved
watermark rectangle is unchanged. -/
theorem buffer_mutation_locality (buf : Buffer) (am : AlphaMap) (F : ℚ)
    (w h : ℕ) (t : WMType) (buf' : Buffer)
    (hok : removeWatermarkFromImage buf am F w h t = .ok buf')
    (x y : ℤ) (c : Fin 4)
    (hout : inRect
      (calculateWatermarkPosition w h (detectWatermarkConfig w h t)) x y = false) :
    buf' x y c = buf x y c := by
  simp only [removeWatermarkFromImage, removeWatermark] at hok
  rcases hb : rectInBounds
      (calculateWatermarkPosition w h (detectWatermarkConfig w h t)) w h with _ | _
  · rw [hb] at hok
    rw [if_neg (by simp)] at hok
    exact Except.noConfusion hok
  · rw [hb] at hok
    rw [if_pos rfl] at hok
    have hfun := Except.ok.inj hok
    rw [← hfun]
    simp only [hout, Bool.false_and, Bool.false_eq_true, if_false]

/-- Witness for C5: a 2048×2048 Gemini image (in-bounds rectangle); the byte
at the origin, outside the watermark rectangle, is unchanged. -/
theorem buffer_mutation_locality_witness :
    ∃ buf' : Buffer,
      removeWatermarkFromImage (fun _ _ _ => 7) (fun _ _ => 0) 0 2048 2048 .gemini =
        .ok buf' ∧
      inRect (calculateWatermarkPosition 2048 2048
        (detectWatermarkConfig 2048 2048 .gemini)) 0 0 = false ∧
      buf' 0 0 0 = 7 := by
  refine ⟨_, rfl, by decide, ?_⟩
  have h7 : (fun (_ : ℤ) (_ : ℤ) (_ : Fin 4) => (7 : ℤ)) 0 0 0 = 7 := rfl
  calc _ = (fun (_ : ℤ) (_ : ℤ) (_ : Fin 4) => (7 : ℤ)) 0 0 0 :=
        buffer_mutation_locality (fun _ _ _ => 7) (fun _ _ => 0) 0 2048 2048 .gemini
          _ rfl 0 0 0 (by decide)
    _ = 7 := rfl

/-- C6: round-trip stability — forward-compositing a true byte value with
opacity a ∈ [0, 0.999] and tint F, then applying the reverse blend, recovers
the byte within ±1. -/
theorem reverse_blend_round_trip (c : ℤ) (hc0 : 0 ≤ c) (hc1 : c ≤ 255)
    (a F : ℚ) (ha0 : 0 ≤ a) (ha1 : a ≤ 999/1000) :
    |reverseBlendChannel (forwardComposite c a F) a F - c| ≤ 1 := by
  have hmin : effectiveAlpha a = a := min_eq_left ha1
  have hne : (1 : ℚ) - a ≠ 0 := by
    intro hz
    rw [sub_eq_zero] at hz
    rw [← hz] at ha1
    norm_num at ha1
  have hdiv : (forwardComposite c a F - a * F) / (1 - a) = (c : ℚ) := by
    rw [div_eq_iff hne, forwardComposite]
    ring
  have heq : reverseBlendChannel (forwardComposite c a F) a F = c := by
    rw [reverseBlendChannel, hmin, hdiv, jsRound_intCast, clampByte_of_mem hc0 hc1]
  rw [heq]
  simp

/-- Witness for C6 at c = 100, a = 1/2, F = 200. -/
theorem reverse_blend_round_trip_witness :
    (0 : ℤ) ≤ 100 ∧ (100 : ℤ) ≤ 255 ∧ (0 : ℚ) ≤ 1/2 ∧ (1 : ℚ)/2 ≤ 999/1000 ∧
    |reverseBlendChannel (forwardComposite 100 (1/2) 200) (1/2) 200 - 100| ≤ 1 :=
  ⟨by norm_num, by norm_num, by norm_num, by norm_num,
    reverse_blend_round_trip 100 (by norm_num) (by norm_num) (1/2) 200
      (by norm_num) (by norm_num)⟩

/-- C7: divide-by-near-zero safety — for opacity exactly 1.0 the reverse
blend clamps the opacity to the 0.999 ceiling, so the divisor is nonzero and
the output is a byte in [0, 255]. -/
theorem reverse_blend_alpha_one_safe (cObs F : ℚ) :
    effectiveAlpha 1 = 999/1000 ∧
    (1 : ℚ) - effectiveAlpha 1 ≠ 0 ∧
    0 ≤ reverseBlendChannel cObs 1 F ∧
    reverseBlendChannel cObs 1 F ≤ 255 := by
  have hea : effectiveAlpha 1 = 999/1000 := by
    rw [effectiveAlpha]
    norm_num
  refine ⟨hea, by rw [hea]; norm_num, ?_, ?_⟩
  · rw [reverseBlendChannel, clampByte]
    exact le_max_left _ _
  · rw [reverseBlendChannel, clampByte]
    exact max_le (by norm_num) (min_le_left _ _)

/-- C9: engine creation is all-or-nothing — it yields an engine exactly when
all five reference captures loaded, the engine then holds exactly those
captures, and any single load failure makes creation fail with an error so
no engine instance is produced. -/
theorem engine_create_all_or_nothing (r48 r96 rD1 rD2 rD3 : Except LoadError Capture) :
    ((WatermarkEngine.create r48 r96 rD1 rD2 rD3).isOk = true ↔
      (r48.isOk = true ∧ r96.isOk = true ∧ rD1.isOk = true ∧
        rD2.isOk = true ∧ rD3.isOk = true)) ∧
    (∀ c1 c2 c3 c4 c5, r48 = .ok c1 → r96 = .ok c2 → rD1 = .ok c3 →
      rD2 = .ok c4 → rD3 = .ok c5 →
      WatermarkEngine.create r48 r96 rD1 rD2 rD3 =
        .ok { bgCaptures := ⟨c1, c2, c3, c4, c5⟩, currentWatermarkType := .gemini }) ∧
    (∀ e, r48 = .error e ∨ r96 = .error e ∨ rD1 = .error e ∨
      rD2 = .error e ∨ rD3 = .error e →
      ∀ eng, WatermarkEngine.create r48 r96 rD1 rD2 rD3 ≠ .ok eng) := by
  refine ⟨?_, ?_, ?_⟩
  · cases r48 <;> cases r96 <;> cases rD1 <;> cases rD2 <;> cases rD3 <;>
      simp [WatermarkEngine.create, Except.isOk, Except.toBool]
  · intro c1 c2 c3 c4 c5 h1 h2 h3 h4 h5
    subst h1 h2 h3 h4 h5
    rfl
  · intro e he eng
    cases r48 <;> cases r96 <;> cases rD1 <;> cases rD2 <;> cases rD3 <;>
      simp_all [WatermarkEngine.create]

/-- Witness for C9: with all five captures loaded, creation succeeds with
exactly those captures; the second conjunct is applied at concrete loads. -/
theorem engine_create_all_or_nothing_witness :
    WatermarkEngine.create (.ok ⟨48, 48⟩) (.ok ⟨96, 96⟩) (.ok ⟨500, 500⟩)
        (.ok ⟨500, 750⟩) (.ok ⟨750, 500⟩) =
      .ok { bgCaptures := ⟨⟨48, 48⟩, ⟨96, 96⟩, ⟨500, 500⟩, ⟨500, 750⟩, ⟨750, 500⟩⟩
            currentWatermarkType := .gemini } :=
  (engine_create_all_or_nothing _ _ _ _ _).2.1 _ _ _ _ _ rfl rfl rfl rfl rfl

/-- For a non-Doubao type tag the detector falls through to the Gemini
configuration. -/
theorem detectWatermarkConfig_not_doubao (w h : ℕ) (t : WMType) (ht : t ≠ .doubao) :
    detectWatermarkConfig w h t = calculateGeminiConfig w h := by
  simp only [detectWatermarkConfig, ht, if_false]

/-- The Doubao detector output, with the scaled quantities abstracted. -/
theorem detectWatermarkConfig_doubao_shape (w h : ℕ) :
    ∃ wd hg mr mb : ℤ, detectWatermarkConfig w h .doubao =
      { type := .doubao, width := wd, height := hg, logoSize := none
        marginRight := mr, marginBottom := mb
        aspectCategory := some (getDoubaoAspectCategory w h)
        sizeCategory := none, sourceTemplate := none
        refConfig := some (DOUBAO_CONFIGS (getDoubaoAspectCategory w h)) } :=
  ⟨_, _, _, _, rfl⟩

/-- The Gemini configuration is one of the three size-bucket shapes. -/
theorem calculateGeminiConfig_cases (w h : ℕ) :
    calculateGeminiConfig w h =
      { type := .gemini, width := 48, height := 48, logoSize := some 48
        marginRight := 32, marginBottom := 32, aspectCategory := none
        sizeCategory := some .small, sourceTemplate := some .t48, refConfig := none } ∨
    calculateGeminiConfig w h =
      { type := .gemini, width := 96, height := 96, logoSize := some 96
        marginRight := 64, marginBottom := 64, aspectCategory := none
        sizeCategory := some .medium, sourceTemplate := some .t96, refConfig := none } ∨
    (∃ l m : ℤ, calculateGeminiConfig w h =
      { type := .gemini, width := l, height := l, logoSize := some l
        marginRight := m, marginBottom := m, aspectCategory := none
        sizeCategory := some .large, sourceTemplate := some .t96, refConfig := none }) := by
  by_cases h1 : min w h ≤ GEMINI_SCALING.smallMaxEdge
  · left
    simp only [calculateGeminiConfig]
    rw [if_pos h1]
  · by_cases h2 : min w h ≤ 2048
    · right; left
      simp only [calculateGeminiConfig]
      rw [if_neg h1, if_pos h2]
    · right; right
      refine ⟨_, _, calculateGeminiConfig_of_large w h ?_⟩
      simp only [GEMINI_SCALING] at h1
      omega

/-- C10: alpha-map cache-key soundness — any two detector-produced
configurations with the same cache key (watermark type, aspect or size
category, target width and height) select the same source reference template
and the same target dimensions in `getAlphaMap`. -/
theorem alpha_map_cache_key_sound (w1 h1 w2 h2 : ℕ) (t1 t2 : WMType)
    (hkey : cacheKey (detectWatermarkConfig w1 h1 t1) =
      cacheKey (detectWatermarkConfig w2 h2 t2)) :
    alphaMapTemplate (detectWatermarkConfig w1 h1 t1) =
      alphaMapTemplate (detectWatermarkConfig w2 h2 t2) ∧
    alphaMapTargetDims (detectWatermarkConfig w1 h1 t1) =
      alphaMapTargetDims (detectWatermarkConfig w2 h2 t2) := by
  by_cases ht1 : t1 = .doubao <;> by_cases ht2 : t2 = .doubao
  · subst ht1
    subst ht2
    obtain ⟨wd1, hg1, mr1, mb1, e1⟩ := detectWatermarkConfig_doubao_shape w1 h1
    obtain ⟨wd2, hg2, mr2, mb2, e2⟩ := detectWatermarkConfig_doubao_shape w2 h2
    rw [e1, e2] at hkey ⊢
    cases ha1 : getDoubaoAspectCategory w1 h1 <;>
      cases ha2 : getDoubaoAspectCategory w2 h2 <;>
      rw [ha1, ha2] at hkey <;>
      simp_all [cacheKey, cacheKeyCategory, wmTypeStr, aspectCategoryStr,
        alphaMapTemplate, alphaMapTargetDims]
  · subst ht1
    obtain ⟨wd1, hg1, mr1, mb1, e1⟩ := detectWatermarkConfig_doubao_shape w1 h1
    rw [detectWatermarkConfig_not_doubao w2 h2 t2 ht2] at hkey ⊢
    rcases calculateGeminiConfig_cases w2 h2 with e2 | e2 | ⟨l2, m2, e2⟩ <;>
      rw [e1, e2] at hkey <;>
      simp_all [cacheKey, wmTypeStr]
  · subst ht2
    obtain ⟨wd2, hg2, mr2, mb2, e2⟩ := detectWatermarkConfig_doubao_shape w2 h2
    rw [detectWatermarkConfig_not_doubao w1 h1 t1 ht1] at hkey ⊢
    rcases calculateGeminiConfig_cases w1 h1 with e1 | e1 | ⟨l1, m1, e1⟩ <;>
      rw [e1, e2] at hkey <;>
      simp_all [cacheKey, wmTypeStr]
  · rw [detectWatermarkConfig_not_doubao w1 h1 t1 ht1,
      detectWatermarkConfig_not_doubao w2 h2 t2 ht2] at hkey ⊢
    rcases calculateGeminiConfig_cases w1 h1 with e1 | e1 | ⟨l1, m1, e1⟩ <;>
      rcases calculateGeminiConfig_cases w2 h2 with e2 | e2 | ⟨l2, m2, e2⟩ <;>
      rw [e1, e2] at hkey ⊢ <;>
      simp_all [cacheKey, cacheKeyCategory, wmTypeStr, sizeCategoryStr,
        alphaMapTemplate, alphaMapTargetDims]

/-- Witness for C10: two Doubao calls at proportional sizes share the cache
key, and the theorem yields the same template and target dimensions. -/
theorem alpha_map_cache_key_sound_witness :
    cacheKey (detectWatermarkConfig 1024 1024 .doubao) =
      cacheKey (detectWatermarkConfig 1024 1025 .doubao) ∧
    alphaMapTemplate (detectWatermarkConfig 1024 1024 .doubao) =
      alphaMapTemplate (detectWatermarkConfig 1024 1025 .doubao) := by
  have ha : getDoubaoAspectCategory 1024 1024 = .a1x1 := by
    simp only [getDoubaoAspectCategory]
    norm_num
  have hb : getDoubaoAspectCategory 1024 1025 = .a1x1 := by
    simp only [getDoubaoAspectCategory]
    rw [if_neg (by norm_num), if_neg (by norm_num)]
  have hkey : cacheKey (detectWatermarkConfig 1024 1024 .doubao) =
      cacheKey (detectWatermarkConfig 1024 1025 .doubao) := by
    simp only [cacheKey, cacheKeyCategory, detectWatermarkConfig, ha, hb, if_pos]
    norm_num
  exact ⟨hkey,
    (alpha_map_cache_key_sound 1024 1024 1024 1025 .doubao .doubao hkey).1⟩

end WatermarkRemover
